import Mathlib

/-!
Shallow embedding of the network-diagram editor `src/net-app.py`
(classes `NetApp` and `NetworkEquipment`) in Lean 4.

Modelling conventions:
- Python dicts are insertion-ordered association lists; `d[k] = v`
  replaces the value of an existing key in place and appends otherwise;
  reading a missing key raises `KeyError`.
- Exceptions are modelled explicitly: every stateful operation returns
  `State × Option PyError`, where the returned state reflects the
  mutations performed up to the raise point (Tk keeps the application
  object alive after an exception inside an event handler, so partial
  mutations persist).
- External collaborators are parameters: icon loading (PIL) is a
  function `String → Bool` saying whether opening that path succeeds;
  the opaque loaded image (`iconRef`) is modelled by the path string it
  was decoded from; blocking dialogs deliver their result as an
  argument.
- The Tk canvas is modelled by its display list: a list of items in
  stacking order (later = on top) plus the counter from which fresh
  item tags are assigned (Tk assigns 1, 2, 3, ...).
-/

/-- Python `str.lower()` on one ASCII character (the kind strings the
program compares are ASCII). -/
def pyLowerChar (c : Char) : Char :=
  if 65 ≤ c.toNat ∧ c.toNat ≤ 90 then Char.ofNat (c.toNat + 32) else c

/-- Python `str.lower()`. -/
def pyLower (s : String) : String := String.mk (s.data.map pyLowerChar)

/-- The Python-level failure modes the program can hit. -/
inductive PyError where
  /-- `raise ValueError(msg)` -/
  | valueError (msg : String)
  /-- reading a missing key from a dict -/
  | keyError
  /-- indexing an empty tuple, e.g. `find_closest(...)[0]` -/
  | indexError
  /-- subscripting / attribute access on `None` -/
  | typeError
  /-- PIL `Image.open` failure -/
  | iconLoadError
deriving DecidableEq, Repr

/-- Python dict read `d[k]`: value of the first (unique) binding of `k`. -/
def dictLookup [DecidableEq α] (d : List (α × β)) (k : α) : Option β :=
  (d.find? (fun p => p.1 = k)).map Prod.snd

/-- Python dict write `d[k] = v` (also `d.update({k: v})`): replace in
place when the key exists, append otherwise. -/
def dictSet [DecidableEq α] (d : List (α × β)) (k : α) (v : β) : List (α × β) :=
  if d.any (fun p => p.1 = k) then
    d.map (fun p => if p.1 = k then (k, v) else p)
  else
    d ++ [(k, v)]

/-- One placed network device: class `NetworkEquipment` (instance part). -/
structure NetworkEquipment where
  /-- `self.equipment`: the kind string exactly as passed in (the code
  does not lowercase it despite its docstring). -/
  equipment : String
  /-- `self.icon_path` -/
  icon_path : String
  /-- `self.icon`: the opaque loaded image, modelled by the path it was
  decoded from. -/
  icon : String
  /-- `self.name` -/
  name : String
  /-- `self.links_nbr` -/
  links_nbr : Nat
deriving DecidableEq, Repr

namespace NetworkEquipment

/-- `NetworkEquipment.supported_equipments` class attribute. -/
def supported_equipments : List String := ["switch", "router", "pc", "mobile"]

/-- `NetworkEquipment.icon_size` class attribute. -/
def icon_size : Nat × Nat := (64, 64)

/-- `NetworkEquipment.ids` class attribute at module load:
`{key: 0 for key in supported_equipments}`. -/
def initIds : List (String × Nat) := supported_equipments.map (fun k => (k, 0))

/-- `NetworkEquipment.__init__(type)`. The class-level mutable dict
`NetworkEquipment.ids` is threaded explicitly. Order of effects follows
the source: validate `type.lower()`, build the icon path from the
unlowercased `type`, open the icon, then `ids[self.equipment] += 1`
(reading a key that is absent when `type` is not exactly lowercase
raises `KeyError`), then assign the default name. -/
def init (loader : String → Bool) (ids : List (String × Nat)) (type : String) :
    Except PyError (List (String × Nat) × NetworkEquipment) :=
  if pyLower type ∈ supported_equipments then
    let path := "./src/icons/" ++ type ++ ".png"
    if loader path then
      match dictLookup ids type with
      | none => .error .keyError
      | some n =>
        .ok (dictSet ids type (n + 1),
          { equipment := type
            icon_path := path
            icon := path
            name := type ++ "-" ++ toString (n + 1)
            links_nbr := 0 })
    else .error .iconLoadError
  else .error (.valueError "Unsupported Network Equipment")

/-- `NetworkEquipment.setName(new_name)`. -/
def setName (ne : NetworkEquipment) (new_name : String) : NetworkEquipment :=
  { ne with name := new_name }

/-- `NetworkEquipment.setIcon(new_icon)`: assigns `self.icon_path` first
and only then attempts the load, so on failure the path is already
overwritten while `self.icon` keeps the previous image. -/
def setIcon (loader : String → Bool) (ne : NetworkEquipment) (new_icon : String) :
    NetworkEquipment × Option PyError :=
  let ne1 := { ne with icon_path := new_icon }
  if loader new_icon then
    ({ ne1 with icon := new_icon }, none)
  else
    (ne1, some .iconLoadError)

/-- `NetworkEquipment.getLinksNumber()`: increments `self.links_nbr`
and returns the new value. -/
def getLinksNumber (ne : NetworkEquipment) : NetworkEquipment × Nat :=
  let ne1 := { ne with links_nbr := ne.links_nbr + 1 }
  (ne1, ne1.links_nbr)

end NetworkEquipment

/-- What kind of visual a canvas item is. -/
inductive CanvasItemKind where
  | image
  | text
deriving DecidableEq, Repr

/-- One item of the Tk canvas display list. `pos` is the coordinate
pair last given to `create_image`/`create_text`/`moveto` for this item. -/
structure CanvasItem where
  tag : Nat
  kind : CanvasItemKind
  pos : Int × Int
deriving DecidableEq, Repr

/-- The Tk `Canvas` (`self.playground`): display list in stacking order
(later items are on top) and the counter for fresh item tags. -/
structure Canvas where
  items : List CanvasItem
  next_tag : Nat
deriving DecidableEq, Repr

namespace Canvas

/-- The empty canvas; Tk assigns tags starting from 1. -/
def empty : Canvas := { items := [], next_tag := 1 }

/-- `canvas.create_image(coords, image=...)`: appends a new topmost
image item and returns its fresh tag. -/
def create_image (c : Canvas) (coords : Int × Int) : Canvas × Nat :=
  ({ items := c.items ++ [{ tag := c.next_tag, kind := .image, pos := coords }]
     next_tag := c.next_tag + 1 }, c.next_tag)

/-- `canvas.create_text(coords, text=...)`: appends a new topmost
text item and returns its fresh tag. -/
def create_text (c : Canvas) (coords : Int × Int) : Canvas × Nat :=
  ({ items := c.items ++ [{ tag := c.next_tag, kind := .text, pos := coords }]
     next_tag := c.next_tag + 1 }, c.next_tag)

/-- Squared euclidean distance from an item position to a query point. -/
def dist2 (p : Int × Int) (x y : Int) : Int :=
  (p.1 - x) * (p.1 - x) + (p.2 - y) * (p.2 - y)

/-- Closest item of the display list to a query point; ties go to the
item later in the display list (the topmost one, as Tk's `closest`
canvas command resolves them). -/
def closestItem (x y : Int) : List CanvasItem → Option CanvasItem
  | [] => none
  | it :: rest =>
    match closestItem x y rest with
    | none => some it
    | some best => if dist2 it.pos x y < dist2 best.pos x y then some it else some best

/-- `canvas.find_closest(x, y)`: `none` models the empty tuple returned
on an empty canvas (so `find_closest(x, y)[0]` is an `IndexError`). -/
def find_closest (c : Canvas) (x y : Int) : Option Nat :=
  (closestItem x y c.items).map CanvasItem.tag

/-- `canvas.tag_raise(tag)`: move the item to the end of the display
list (topmost). -/
def tag_raise (c : Canvas) (tag : Nat) : Canvas :=
  { c with items :=
      c.items.filter (fun it => it.tag ≠ tag) ++ c.items.filter (fun it => it.tag = tag) }

/-- `canvas.tag_lower(tag)`: move the item to the front of the display
list (bottommost). -/
def tag_lower (c : Canvas) (tag : Nat) : Canvas :=
  { c with items :=
      c.items.filter (fun it => it.tag = tag) ++ c.items.filter (fun it => it.tag ≠ tag) }

/-- `canvas.moveto(tag, x, y)`: reposition the item with that tag. -/
def moveto (c : Canvas) (tag : Nat) (coords : Int × Int) : Canvas :=
  { c with items := c.items.map (fun it => if it.tag = tag then { it with pos := coords } else it) }

/-- `canvas.delete(tag)`: remove the item with that tag (a no-op when
no item has it). -/
def delete (c : Canvas) (tag : Nat) : Canvas :=
  { c with items := c.items.filter (fun it => it.tag ≠ tag) }

end Canvas

/-- One link draft record, as stored under
`equipments[id]["dependencies"]["links"][slot]`. -/
structure LinkRecord where
  lid : String
  coords : (Int × Int) × (Int × Int)
deriving DecidableEq, Repr

/-- The per-equipment record stored under `self.equipments[id]`:
`{"item": ..., "canvas_id": ..., "bindings": ..., "dependencies":
{"label": ..., "links": ...}}`. The bindings sub-dict only stores the
event-handler registrations and is not modelled further. -/
structure EquipEntry where
  item : NetworkEquipment
  canvas_id : Nat
  label : Nat
  links : List (Nat × LinkRecord)
deriving DecidableEq, Repr

/-- The application state: the mutable attributes of class `NetApp`
plus the class-level `NetworkEquipment.ids` dict (a process-wide
global, threaded here as part of the state). A value `none` in
`equipments` is the Python `None` tombstone written by
`__prepareDeletionOfEquipment`. -/
structure NetApp where
  x_size : Int
  y_size : Int
  mouse_coords : Int × Int
  equipments : List (Nat × Option EquipEntry)
  equipment_nbr : Nat
  reverse_equipments : List (Nat × Nat)
  playground : Canvas
  focused_tag : Nat
  eq_ids : List (String × Nat)
deriving DecidableEq, Repr

namespace NetApp

/-- `NetApp.__init__(name, base_size)`: the parts of the constructor
that initialise core state (mouse coordinates `(0, 0)`, empty
registries, counter 0, empty canvas, focus sentinel 0), together with
the module-load value of `NetworkEquipment.ids`. -/
def init (x_size y_size : Int) : NetApp :=
  { x_size := x_size
    y_size := y_size
    mouse_coords := (0, 0)
    equipments := []
    equipment_nbr := 0
    reverse_equipments := []
    playground := Canvas.empty
    focused_tag := 0
    eq_ids := NetworkEquipment.initIds }

/-- `NetApp.__getMouseCoords(event)`: the root-level `<Motion>`
listener. -/
def getMouseCoords (s : NetApp) (x y : Int) : NetApp :=
  { s with mouse_coords := (x, y) }

/-- `NetApp.add_equipment(type)`. `self.equipment_nbr` is incremented
before the `NetworkEquipment` constructor runs, so a failed creation
still consumes an id; on success the icon and its label are drawn at
the window centre, both registry directions are recorded, and
`__configureEquipment` raises the new icon to the top. -/
def add_equipment (loader : String → Bool) (s : NetApp) (type : String) :
    NetApp × Option PyError :=
  let s1 := { s with equipment_nbr := s.equipment_nbr + 1 }
  let default_coords : Int × Int := (Int.fdiv s1.x_size 2, Int.fdiv s1.y_size 2)
  match NetworkEquipment.init loader s1.eq_ids type with
  | .error e => (s1, some e)
  | .ok (ids2, ne) =>
    let r1 := s1.playground.create_image default_coords
    let r2 := r1.1.create_text
      (default_coords.1, default_coords.2 + Int.fdiv (NetworkEquipment.icon_size.2 : Int) 2)
    let canvas_tag := r1.2
    let equipment_label := r2.2
    ({ s1 with
        eq_ids := ids2
        equipments := dictSet s1.equipments s1.equipment_nbr
          (some { item := ne, canvas_id := canvas_tag, label := equipment_label, links := [] })
        reverse_equipments := dictSet s1.reverse_equipments canvas_tag s1.equipment_nbr
        playground := r2.1.tag_raise canvas_tag }, none)

/-- `NetApp.__prepareDeletionOfEquipment(equipment_tag)`: overwrites
`self.equipments[self.reverse_equipments[equipment_tag]]` with `None`
(a `KeyError` when the tag was never tracked) and lowers the item;
`self.reverse_equipments` is left untouched. -/
def prepareDeletionOfEquipment (s : NetApp) (equipment_tag : Nat) :
    NetApp × Option PyError :=
  match dictLookup s.reverse_equipments equipment_tag with
  | none => (s, some .keyError)
  | some eid =>
    ({ s with
        equipments := dictSet s.equipments eid none
        playground := s.playground.tag_lower equipment_tag }, none)

/-- `NetApp.deleteItem(event)`: resolve the double-clicked item via
`find_closest`, run `__prepareDeletionOfEquipment` on it, then delete
it from the canvas. -/
def deleteItem (s : NetApp) (x y : Int) : NetApp × Option PyError :=
  match s.playground.find_closest x y with
  | none => (s, some .indexError)
  | some selected_tag =>
    match s.prepareDeletionOfEquipment selected_tag with
    | (s1, some e) => (s1, some e)
    | (s1, none) => ({ s1 with playground := s1.playground.delete selected_tag }, none)

/-- `NetApp.startDragFocus(event)`: set `self.focused_tag` to the item
closest to the press point. -/
def startDragFocus (s : NetApp) (x y : Int) : NetApp × Option PyError :=
  match s.playground.find_closest x y with
  | none => (s, some .indexError)
  | some t => ({ s with focused_tag := t }, none)

/-- The per-axis coordinate computation of `NetApp.endDragFocus`:
`event.x if widget.winfo_x() + event.x <= self.x_size else self.x_size`.
`w_off` is the canvas widget's own offset (`winfo_x()` / `winfo_y()`)
inside its parent, a runtime layout value passed in explicitly. -/
def dragClamp (w_off bound c : Int) : Int :=
  if w_off + c ≤ bound then c else bound

/-- `NetApp.endDragFocus(event)`: clamp each axis with `dragClamp`,
move the focused item to the clamped point minus half the icon width on
both axes, then move the equipment's dependent label. The dictionary
dereferences `self.equipments[self.reverse_equipments[self.focused_tag]]`
happen after the first `moveto` and can raise (`KeyError` for an
untracked tag, a `TypeError` when the entry is the `None` tombstone). -/
def endDragFocus (s : NetApp) (wx wy x y : Int) : NetApp × Option PyError :=
  let x1 := dragClamp wx s.x_size x
  let y1 := dragClamp wy s.y_size y
  let difference_mouse_icon : Int := Int.fdiv (NetworkEquipment.icon_size.1 : Int) 2
  let pg1 := s.playground.moveto s.focused_tag
    (x1 - difference_mouse_icon, y1 - difference_mouse_icon)
  match dictLookup s.reverse_equipments s.focused_tag with
  | none => ({ s with playground := pg1 }, some .keyError)
  | some eid =>
    match dictLookup s.equipments eid with
    | none => ({ s with playground := pg1 }, some .keyError)
    | some none => ({ s with playground := pg1 }, some .typeError)
    | some (some entry) =>
      let pg2 := pg1.moveto entry.label
        (x1 - Int.fdiv difference_mouse_icon 2, y1 + difference_mouse_icon)
      ({ s with playground := pg2 }, none)

/-- `NetApp.setEquipmentName(equipment_tag, name)`: resolve the entry
through both registry directions (raising on an untracked tag or a
tombstoned entry), rename the equipment object and push the new name to
the label item. -/
def setEquipmentName (s : NetApp) (equipment_tag : Nat) (name : String) :
    NetApp × Option PyError :=
  match dictLookup s.reverse_equipments equipment_tag with
  | none => (s, some .keyError)
  | some holder =>
    match dictLookup s.equipments holder with
    | none => (s, some .keyError)
    | some none => (s, some .typeError)
    | some (some entry) =>
      let entry1 := { entry with item := entry.item.setName name }
      ({ s with equipments := dictSet s.equipments holder (some entry1) }, none)

/-- `NetApp.setEquipmentIcon(equipment_tag, new_icon)`: resolve the
entry, call the equipment's `setIcon` (whose partial mutation persists
even when the load fails, since the object is mutated in place), and on
success point the canvas item at the new image. -/
def setEquipmentIcon (loader : String → Bool) (s : NetApp) (equipment_tag : Nat)
    (new_icon : String) : NetApp × Option PyError :=
  match dictLookup s.reverse_equipments equipment_tag with
  | none => (s, some .keyError)
  | some holder =>
    match dictLookup s.equipments holder with
    | none => (s, some .keyError)
    | some none => (s, some .typeError)
    | some (some entry) =>
      let r := entry.item.setIcon loader new_icon
      let entry1 := { entry with item := r.1 }
      ({ s with equipments := dictSet s.equipments holder (some entry1) }, r.2)

/-- `NetApp.setEquipmentsLink(equipment_tag)`: resolve the entry, draw a
fresh link slot from `getLinksNumber()` and record a draft whose source
is the current mouse position and whose target placeholder is `(0, 0)`. -/
def setEquipmentsLink (s : NetApp) (equipment_tag : Nat) : NetApp × Option PyError :=
  match dictLookup s.reverse_equipments equipment_tag with
  | none => (s, some .keyError)
  | some holder =>
    match dictLookup s.equipments holder with
    | none => (s, some .keyError)
    | some none => (s, some .typeError)
    | some (some entry) =>
      let r := entry.item.getLinksNumber
      let links1 := dictSet entry.links r.2 { lid := "", coords := (s.mouse_coords, (0, 0)) }
      let entry1 := { entry with item := r.1, links := links1 }
      ({ s with equipments := dictSet s.equipments holder (some entry1) }, none)

/-- `NetApp.handleChangeOfEquipmentName()`: after the blocking entry
popup (whose submitted text is the `entry` argument), target
`self.focused_tag` when it is non-zero, otherwise the item closest to
the tracked mouse position (`find_closest(...)[0]` raises `IndexError`
on an empty canvas). -/
def handleChangeOfEquipmentName (s : NetApp) (entry : String) : NetApp × Option PyError :=
  if s.focused_tag ≠ 0 then
    s.setEquipmentName s.focused_tag entry
  else
    match s.playground.find_closest s.mouse_coords.1 s.mouse_coords.2 with
    | none => (s, some .indexError)
    | some t => s.setEquipmentName t entry

/-- `NetApp.handleChangeOfEquipmentIcon()`: `dialog_result` is what
`askopenfilename()` returned (the empty string when the user cancelled);
it is passed to `setEquipmentIcon` with no emptiness guard, targeting
the focused tag or the closest-item fallback. -/
def handleChangeOfEquipmentIcon (loader : String → Bool) (s : NetApp)
    (dialog_result : String) : NetApp × Option PyError :=
  if s.focused_tag ≠ 0 then
    setEquipmentIcon loader s s.focused_tag dialog_result
  else
    match s.playground.find_closest s.mouse_coords.1 s.mouse_coords.2 with
    | none => (s, some .indexError)
    | some t => setEquipmentIcon loader s t dialog_result

/-- `NetApp.handleLinkCreation()`: target the focused tag or the
closest-item fallback and start a link draft there. -/
def handleLinkCreation (s : NetApp) : NetApp × Option PyError :=
  if s.focused_tag ≠ 0 then
    s.setEquipmentsLink s.focused_tag
  else
    match s.playground.find_closest s.mouse_coords.1 s.mouse_coords.2 with
    | none => (s, some .indexError)
    | some t => s.setEquipmentsLink t

end NetApp

/-- A registry-level operation: an `Insert {kind}` menu command or a
double-click `Remove` at a canvas point. -/
inductive RegOp where
  | insert (kind : String)
  | remove (x y : Int)
deriving DecidableEq, Repr

/-- Run a sequence of insert/remove operations from a state. A raised
exception aborts only its own event handler (Tk prints it and keeps the
application running), so the partially mutated state flows on. -/
def runOps (loader : String → Bool) (s : NetApp) : List RegOp → NetApp
  | [] => s
  | .insert k :: rest => runOps loader (s.add_equipment loader k).1 rest
  | .remove x y :: rest => runOps loader (s.deleteItem x y).1 rest

/-- The ids handed out by the successful inserts of an operation
sequence, in order of assignment. -/
def assignedIds (loader : String → Bool) (s : NetApp) : List RegOp → List Nat
  | [] => []
  | .insert k :: rest =>
    match s.add_equipment loader k with
    | (s1, none) => (s.equipment_nbr + 1) :: assignedIds loader s1 rest
    | (s1, some _) => assignedIds loader s1 rest
  | .remove x y :: rest => assignedIds loader (s.deleteItem x y).1 rest

/-- The (kind, default display name) pairs of the successful creations
of an operation sequence, in order of creation. -/
def createdNames (loader : String → Bool) (s : NetApp) : List RegOp → List (String × String)
  | [] => []
  | .insert k :: rest =>
    match s.add_equipment loader k with
    | (s1, none) =>
      match dictLookup s1.equipments (s.equipment_nbr + 1) with
      | some (some entry) => (entry.item.equipment, entry.item.name) :: createdNames loader s1 rest
      | _ => createdNames loader s1 rest
    | (s1, some _) => createdNames loader s1 rest
  | .remove x y :: rest => createdNames loader (s.deleteItem x y).1 rest

/-- The default display names the spec prescribes for the first `n`
creations of a kind: `"{kind}-1"`, ..., `"{kind}-n}"` (per-kind counter
starting at 1). -/
def perKindSeq (k : String) (n : Nat) : List String :=
  (List.range n).map (fun i => k ++ "-" ++ toString (i + 1))

/-- Test fixture: an icon loader for which every load succeeds except
opening the empty path (which PIL always rejects). -/
def pathLoader : String → Bool := fun p => !(p == "")

/-- Test fixture: a loader that additionally fails on one specific
(non-empty) path, standing for a missing or corrupt image file. -/
def badLoader : String → Bool := fun p => !(p == "/bad.png") && !(p == "")

/-- Test fixture: an 800x800 app with one switch inserted (id 1, icon
tag 1, label tag 2, both drawn at the centre). -/
def sampleApp : NetApp := (NetApp.add_equipment pathLoader (NetApp.init 800 800) "switch").1

/-- Test fixture: `sampleApp` after double-clicking the switch icon. -/
def sampleDeleted : NetApp := (NetApp.deleteItem sampleApp 400 400).1

/-- Test fixture: `sampleApp` after a primary press on the switch icon
(so `focused_tag = 1`). -/
def sampleFocused : NetApp := (NetApp.startDragFocus sampleApp 400 400).1


/-! ### Helper lemmas about the dict model and the operations -/

theorem dictLookup_nil [DecidableEq α] (k : α) : dictLookup ([] : List (α × β)) k = none := rfl

theorem dictLookup_cons [DecidableEq α] (p : α × β) (d : List (α × β)) (k : α) :
    dictLookup (p :: d) k = if p.1 = k then some p.2 else dictLookup d k := by
  by_cases h : p.1 = k <;> simp [dictLookup, List.find?_cons, h]

theorem dictLookup_map_set_self [DecidableEq α] (d : List (α × β)) (k : α) (v : β)
    (h : d.any (fun p => p.1 = k) = true) :
    dictLookup (d.map (fun p => if p.1 = k then (k, v) else p)) k = some v := by
  induction d with
  | nil => simp at h
  | cons p rest ih =>
    by_cases hp : p.1 = k
    · simp [hp, dictLookup_cons]
    · simp only [List.any_cons, Bool.or_eq_true, decide_eq_true_eq] at h
      rcases h with h | h

      · exact absurd h hp
      · simp [hp, dictLookup_cons, ih h]

theorem dictLookup_map_set_ne [DecidableEq α] (d : List (α × β)) (k k' : α) (v : β)
    (hk : k' ≠ k) :
    dictLookup (d.map (fun p => if p.1 = k then (k, v) else p)) k' = dictLookup d k' := by
  induction d with
  | nil => rfl
  | cons p rest ih =>
    by_cases hp : p.1 = k
    · simp [hp, dictLookup_cons, Ne.symm hk, ih]
    · by_cases hp' : p.1 = k' <;> simp [hp, hp', hk, dictLookup_cons, ih]

theorem dictLookup_append_single_self [DecidableEq α] (d : List (α × β)) (k : α) (v : β)
    (h : d.any (fun p => p.1 = k) = false) :
    dictLookup (d ++ [(k, v)]) k = some v := by
  induction d with
  | nil => simp [dictLookup_cons]
  | cons p rest ih =>
    simp only [List.any_cons, Bool.or_eq_false_iff, decide_eq_false_iff_not] at h
    simp [dictLookup_cons, h.1, ih h.2]

theorem dictLookup_append_single_ne [DecidableEq α] (d : List (α × β)) (k k' : α) (v : β)
    (hk : k' ≠ k) :
    dictLookup (d ++ [(k, v)]) k' = dictLookup d k' := by
  induction d with
  | nil => simp [dictLookup_cons, dictLookup_nil, Ne.symm hk]
  | cons p rest ih =>
    by_cases hp : p.1 = k' <;> simp [dictLookup_cons, hp, ih]

theorem dictLookup_dictSet [DecidableEq α] (d : List (α × β)) (k k' : α) (v : β) :
    dictLookup (dictSet d k v) k' = if k' = k then some v else dictLookup d k' := by
  unfold dictSet
  by_cases hk : k' = k
  · subst hk
    by_cases h : d.any (fun p => p.1 = k') = true
    · simp [h, dictLookup_map_set_self d k' v h]
    · simp only [Bool.not_eq_true] at h
      simp [h, dictLookup_append_single_self d k' v h]
  · by_cases h : d.any (fun p => p.1 = k) = true
    · simp [h, hk, dictLookup_map_set_ne d k k' v hk]
    · simp only [Bool.not_eq_true] at h
      simp [h, hk, dictLookup_append_single_ne d k k' v hk]

theorem dictLookup_dictSet_self [DecidableEq α] (d : List (α × β)) (k : α) (v : β) :
    dictLookup (dictSet d k v) k = some v := by
  simp [dictLookup_dictSet]

theorem dictLookup_dictSet_ne [DecidableEq α] (d : List (α × β)) (k k' : α) (v : β)
    (h : k' ≠ k) : dictLookup (dictSet d k v) k' = dictLookup d k' := by
  simp [dictLookup_dictSet, h]

theorem add_equipment_fst_equipment_nbr (loader : String → Bool) (s : NetApp) (t : String) :
    (s.add_equipment loader t).1.equipment_nbr = s.equipment_nbr + 1 := by
  unfold NetApp.add_equipment
  cases h : NetworkEquipment.init loader s.eq_ids t <;> simp [h]

theorem add_equipment_fst_mouse (loader : String → Bool) (s : NetApp) (t : String) :
    (s.add_equipment loader t).1.mouse_coords = s.mouse_coords := by
  unfold NetApp.add_equipment
  cases h : NetworkEquipment.init loader s.eq_ids t <;> simp [h]

theorem prepareDeletion_fst_equipment_nbr (s : NetApp) (tag : Nat) :
    (s.prepareDeletionOfEquipment tag).1.equipment_nbr = s.equipment_nbr := by
  unfold NetApp.prepareDeletionOfEquipment
  split <;> rfl

theorem deleteItem_fst_equipment_nbr (s : NetApp) (x y : Int) :
    (s.deleteItem x y).1.equipment_nbr = s.equipment_nbr := by
  cases hf : s.playground.find_closest x y with
  | none => simp [NetApp.deleteItem, hf]
  | some t =>
    cases hr : dictLookup s.reverse_equipments t <;>
      simp [NetApp.deleteItem, NetApp.prepareDeletionOfEquipment, hf, hr]

theorem deleteItem_fst_mouse (s : NetApp) (x y : Int) :
    (s.deleteItem x y).1.mouse_coords = s.mouse_coords := by
  cases hf : s.playground.find_closest x y with
  | none => simp [NetApp.deleteItem, hf]
  | some t =>
    cases hr : dictLookup s.reverse_equipments t <;>
      simp [NetApp.deleteItem, NetApp.prepareDeletionOfEquipment, hf, hr]

theorem assignedIds_gt (loader : String → Bool) :
    ∀ (ops : List RegOp) (s : NetApp) (n : Nat),
      n ∈ assignedIds loader s ops → s.equipment_nbr < n := by
  intro ops
  induction ops with
  | nil => intro s n hn; simp [assignedIds] at hn
  | cons op rest ih =>
    intro s n hn
    cases op with
    | insert k =>
      rcases h : s.add_equipment loader k with ⟨s1, err⟩
      have hnbr : s1.equipment_nbr = s.equipment_nbr + 1 := by
        have := add_equipment_fst_equipment_nbr loader s k
        rw [h] at this; exact this
      cases err with
      | none =>
        rw [assignedIds, h] at hn
        rcases List.mem_cons.mp hn with rfl | hmem
        · omega
        · have := ih s1 n hmem; omega
      | some e =>
        rw [assignedIds, h] at hn
        have := ih s1 n hn; omega
    | remove x y =>
      rw [assignedIds] at hn
      have := ih (s.deleteItem x y).1 n hn
      rw [deleteItem_fst_equipment_nbr] at this
      omega

/-- C1: across any sequence of Insert (`add_equipment`) and Remove
(`deleteItem`) operations, from any starting state, the ids assigned by
the inserts are pairwise strictly increasing in order of assignment —
hence never reused, and an insert that follows a removal still receives
an id greater than every id assigned before it. -/
theorem insert_assigns_strictly_increasing_ids (loader : String → Bool) (s : NetApp)
    (ops : List RegOp) : List.Pairwise (· < ·) (assignedIds loader s ops) := by
  induction ops generalizing s with
  | nil => simp [assignedIds]
  | cons op rest ih =>
    cases op with
    | insert k =>
      rcases h : s.add_equipment loader k with ⟨s1, err⟩
      have hnbr : s1.equipment_nbr = s.equipment_nbr + 1 := by
        have := add_equipment_fst_equipment_nbr loader s k
        rw [h] at this; exact this
      cases err with
      | none =>
        rw [assignedIds, h]
        refine List.pairwise_cons.mpr ⟨?_, ih s1⟩
        intro n hn
        have := assignedIds_gt loader rest s1 n hn
        omega
      | some e =>
        rw [assignedIds, h]
        exact ih s1
    | remove x y =>
      rw [assignedIds]
      exact ih (s.deleteItem x y).1

/-- C2 fails on the code: after inserting one switch (id 1, icon handle
1) and deleting it by double-click, the `reverse_equipments`
(handleToId) mapping still contains the stale alias handle 1 ↦ id 1,
and the `equipments` entry for id 1 is only overwritten with a `None`
tombstone rather than removed — the two sides are not removed
atomically in the deletion event. -/
theorem delete_leaves_stale_handle_alias :
    dictLookup sampleDeleted.reverse_equipments 1 = some 1 ∧
    dictLookup sampleDeleted.equipments 1 = some none := by
  decide

/-- C2 amended: a successful insert does establish both registry
directions (the fresh id maps to an entry holding the new icon handle,
and that handle maps back to the id), but deletion removes neither
direction: `__prepareDeletionOfEquipment` leaves `reverse_equipments`
unchanged and merely overwrites the `equipments` value of the resolved
id with `None`, so the stale handle-to-id alias survives the deletion
event. -/
theorem registry_mappings_after_insert_and_delete (loader : String → Bool)
    (s : NetApp) (t : String) (h0 eid : Nat)
    (hins : (s.add_equipment loader t).2 = none)
    (hdel : dictLookup s.reverse_equipments h0 = some eid) :
    (∃ entry : EquipEntry,
        dictLookup (s.add_equipment loader t).1.equipments (s.equipment_nbr + 1)
          = some (some entry) ∧
        entry.canvas_id = s.playground.next_tag ∧
        dictLookup (s.add_equipment loader t).1.reverse_equipments s.playground.next_tag
          = some (s.equipment_nbr + 1)) ∧
    (s.prepareDeletionOfEquipment h0).2 = none ∧
    (s.prepareDeletionOfEquipment h0).1.reverse_equipments = s.reverse_equipments ∧
    dictLookup (s.prepareDeletionOfEquipment h0).1.equipments eid = some none := by
  constructor
  · cases hini : NetworkEquipment.init loader s.eq_ids t with
    | error e =>
      exfalso
      rw [NetApp.add_equipment] at hins
      simp [hini] at hins
    | ok r =>
      rcases r with ⟨ids2, ne⟩
      refine ⟨{ item := ne, canvas_id := s.playground.next_tag,
                label := s.playground.next_tag + 1, links := [] }, ?_, rfl, ?_⟩ <;>
        simp [NetApp.add_equipment, hini, Canvas.create_image, Canvas.create_text,
          dictLookup_dictSet_self]
  · refine ⟨?_, ?_, ?_⟩ <;>
      simp [NetApp.prepareDeletionOfEquipment, hdel, dictLookup_dictSet_self]

/-- Witness for the amended C2 theorem at the one-switch fixture:
inserting a router into `sampleApp` records both directions, and
deleting handle 1 leaves the reverse mapping untouched while
tombstoning entry 1. -/
theorem registry_mappings_witness :
    (∃ entry : EquipEntry,
        dictLookup (sampleApp.add_equipment pathLoader "router").1.equipments
          (sampleApp.equipment_nbr + 1) = some (some entry) ∧
        entry.canvas_id = sampleApp.playground.next_tag ∧
        dictLookup (sampleApp.add_equipment pathLoader "router").1.reverse_equipments
          sampleApp.playground.next_tag = some (sampleApp.equipment_nbr + 1)) ∧
    (sampleApp.prepareDeletionOfEquipment 1).2 = none ∧
    (sampleApp.prepareDeletionOfEquipment 1).1.reverse_equipments
      = sampleApp.reverse_equipments ∧
    dictLookup (sampleApp.prepareDeletionOfEquipment 1).1.equipments 1 = some none :=
  registry_mappings_after_insert_and_delete pathLoader sampleApp "router" 1 1
    (by decide) (by decide)

/-- C3 fails on the code: after the switch of `sampleApp` is deleted
(its icon handle is 1), a further Remove on handle 1 raises nothing at
all — `__prepareDeletionOfEquipment` happily re-tombstones through the
stale reverse mapping — and a further lookup-based operation on handle
1 fails with a `TypeError` (subscripting the `None` tombstone), not
with the `KeyError` that signals an unknown handle. -/
theorem second_remove_succeeds_silently :
    (sampleDeleted.prepareDeletionOfEquipment 1).2 = none ∧
    (sampleDeleted.setEquipmentName 1 "x").2 = some PyError.typeError := by
  decide

/-- C3 amended: Remove and Lookup on a handle the registry never
tracked (a label or link artifact) do fail with `KeyError` (the
UnknownHandle failure); but after a Remove of a tracked handle, a
further Remove on the same handle succeeds silently, and a further
Lookup fails with a `TypeError` from dereferencing the `None`
tombstone rather than with UnknownHandle. -/
theorem unknown_handle_and_tombstone_failures (s : NetApp) (hu ht eid : Nat)
    (nm : String)
    (hun : dictLookup s.reverse_equipments hu = none)
    (htr : dictLookup s.reverse_equipments ht = some eid) :
    (s.prepareDeletionOfEquipment hu).2 = some PyError.keyError ∧
    (s.setEquipmentName hu nm).2 = some PyError.keyError ∧
    ((s.prepareDeletionOfEquipment ht).1.prepareDeletionOfEquipment ht).2 = none ∧
    ((s.prepareDeletionOfEquipment ht).1.setEquipmentName ht nm).2
      = some PyError.typeError := by
  have hdel : (s.prepareDeletionOfEquipment ht).1.reverse_equipments
      = s.reverse_equipments ∧
      dictLookup (s.prepareDeletionOfEquipment ht).1.equipments eid = some none := by
    constructor <;> simp [NetApp.prepareDeletionOfEquipment, htr, dictLookup_dictSet_self]
  refine ⟨?_, ?_, ?_, ?_⟩
  · simp [NetApp.prepareDeletionOfEquipment, hun]
  · simp [NetApp.setEquipmentName, hun]
  · simp [NetApp.prepareDeletionOfEquipment, hdel.1, htr]
  · simp [NetApp.setEquipmentName, hdel.1, htr, hdel.2]

/-- Witness for the amended C3 theorem: in `sampleApp`, handle 5 was
never tracked and handle 1 is the switch icon. -/
theorem unknown_handle_witness :
    (sampleApp.prepareDeletionOfEquipment 5).2 = some PyError.keyError ∧
    (sampleApp.setEquipmentName 5 "x").2 = some PyError.keyError ∧
    ((sampleApp.prepareDeletionOfEquipment 1).1.prepareDeletionOfEquipment 1).2 = none ∧
    ((sampleApp.prepareDeletionOfEquipment 1).1.setEquipmentName 1 "x").2
      = some PyError.typeError :=
  unknown_handle_and_tombstone_failures sampleApp 5 1 1 "x" (by decide) (by decide)

theorem deleteItem_fst_eq_ids (s : NetApp) (x y : Int) :
    (s.deleteItem x y).1.eq_ids = s.eq_ids := by
  cases hf : s.playground.find_closest x y with
  | none => simp [NetApp.deleteItem, hf]
  | some t =>
    cases hr : dictLookup s.reverse_equipments t <;>
      simp [NetApp.deleteItem, NetApp.prepareDeletionOfEquipment, hf, hr]

theorem init_ok_spec (loader : String → Bool) (ids : List (String × Nat)) (t : String)
    (ids2 : List (String × Nat)) (ne : NetworkEquipment)
    (h : NetworkEquipment.init loader ids t = .ok (ids2, ne)) :
    ∃ n, dictLookup ids t = some n ∧ ids2 = dictSet ids t (n + 1) ∧
      ne.equipment = t ∧ ne.name = t ++ "-" ++ toString (n + 1) := by
  unfold NetworkEquipment.init at h
  by_cases hmem : pyLower t ∈ NetworkEquipment.supported_equipments
  · simp only [if_pos hmem] at h
    by_cases hld : loader ("./src/icons/" ++ t ++ ".png") = true
    · simp only [hld, if_true] at h
      cases hl : dictLookup ids t with
      | none => simp [hl] at h
      | some n =>
        simp only [hl, Except.ok.injEq, Prod.mk.injEq] at h
        obtain ⟨hids, hne⟩ := h
        subst hids
        subst hne
        exact ⟨n, rfl, rfl, rfl, rfl⟩
    · simp only [Bool.not_eq_true] at hld
      simp [hld] at h
  · simp [hmem] at h

theorem add_equipment_error_eq (loader : String → Bool) (s : NetApp) (t : String)
    (e : PyError) (h : NetworkEquipment.init loader s.eq_ids t = .error e) :
    s.add_equipment loader t = ({ s with equipment_nbr := s.equipment_nbr + 1 }, some e) := by
  simp [NetApp.add_equipment, h]

theorem add_equipment_ok_facts (loader : String → Bool) (s : NetApp) (t : String)
    (ids2 : List (String × Nat)) (ne : NetworkEquipment)
    (h : NetworkEquipment.init loader s.eq_ids t = .ok (ids2, ne)) :
    (s.add_equipment loader t).2 = none ∧
    (s.add_equipment loader t).1.eq_ids = ids2 ∧
    (s.add_equipment loader t).1.equipment_nbr = s.equipment_nbr + 1 ∧
    dictLookup (s.add_equipment loader t).1.equipments (s.equipment_nbr + 1)
      = some (some { item := ne, canvas_id := s.playground.next_tag,
                     label := s.playground.next_tag + 1, links := [] }) := by
  refine ⟨?_, ?_, ?_, ?_⟩ <;>
    simp [NetApp.add_equipment, h, Canvas.create_image, Canvas.create_text,
      dictLookup_dictSet_self]

theorem initIds_lookup_eq_zero (k : String) (m : Nat)
    (h : dictLookup NetworkEquipment.initIds k = some m) : m = 0 := by
  simp only [NetworkEquipment.initIds, NetworkEquipment.supported_equipments,
    List.map, dictLookup_cons, dictLookup_nil] at h
  split_ifs at h <;> simp_all

theorem createdNames_insert_ok (loader : String → Bool) (s : NetApp) (t : String)
    (rest : List RegOp) (ids2 : List (String × Nat)) (ne : NetworkEquipment)
    (hini : NetworkEquipment.init loader s.eq_ids t = .ok (ids2, ne)) :
    createdNames loader s (.insert t :: rest)
      = (ne.equipment, ne.name) :: createdNames loader (s.add_equipment loader t).1 rest := by
  obtain ⟨h2, hids, hnbr, hlook⟩ := add_equipment_ok_facts loader s t ids2 ne hini
  have hpair : s.add_equipment loader t = ((s.add_equipment loader t).1, none) :=
    Prod.ext rfl h2
  rw [createdNames, hpair]
  simp only [hlook]

theorem createdNames_insert_error (loader : String → Bool) (s : NetApp) (t : String)
    (rest : List RegOp) (e : PyError)
    (hini : NetworkEquipment.init loader s.eq_ids t = .error e) :
    createdNames loader s (.insert t :: rest)
      = createdNames loader (s.add_equipment loader t).1 rest := by
  have hadd := add_equipment_error_eq loader s t e hini
  rw [createdNames, hadd]

theorem createdNames_remove (loader : String → Bool) (s : NetApp) (x y : Int)
    (rest : List RegOp) :
    createdNames loader s (.remove x y :: rest)
      = createdNames loader (s.deleteItem x y).1 rest := by
  rw [createdNames]

theorem createdNames_filter_names (loader : String → Bool) (k : String) :
    ∀ (ops : List RegOp) (s : NetApp) (m : Nat),
      dictLookup s.eq_ids k = some m →
      ((createdNames loader s ops).filter (fun p => p.1 == k)).map Prod.snd
        = (List.range (((createdNames loader s ops).filter (fun p => p.1 == k)).length)).map
            (fun i => k ++ "-" ++ toString (m + i + 1)) := by
  intro ops
  induction ops with
  | nil => intro s m hm; simp [createdNames]
  | cons op rest ih =>
    intro s m hm
    cases op with
    | insert t =>
      cases hini : NetworkEquipment.init loader s.eq_ids t with
      | error e =>
        rw [createdNames_insert_error loader s t rest e hini]
        have heq : (s.add_equipment loader t).1.eq_ids = s.eq_ids := by
          rw [add_equipment_error_eq loader s t e hini]
        exact ih _ m (by rw [heq]; exact hm)
      | ok r =>
        rcases r with ⟨ids2, ne⟩
        obtain ⟨n, hn, hids2, hneq, hname⟩ := init_ok_spec loader s.eq_ids t ids2 ne hini
        obtain ⟨h2, hids, hnbr, hlook⟩ := add_equipment_ok_facts loader s t ids2 ne hini
        rw [createdNames_insert_ok loader s t rest ids2 ne hini, hneq]
        by_cases htk : t = k
        · subst htk
          obtain rfl : n = m := by rw [hn] at hm; injection hm
          have hS : dictLookup (s.add_equipment loader t).1.eq_ids t = some (n + 1) := by
            rw [hids, hids2, dictLookup_dictSet_self]
          have ihS := ih (s.add_equipment loader t).1 (n + 1) hS
          simp only [List.filter_cons, beq_self_eq_true, if_true, List.map_cons,
            List.length_cons, List.range_succ_eq_map, List.map_map, hname, ihS,
            Nat.add_zero]
          have hfun : ((fun i => t ++ "-" ++ toString (n + i + 1)) ∘ Nat.succ)
              = fun i => t ++ "-" ++ toString (n + 1 + i + 1) := by
            funext i
            simp only [Function.comp]
            have harg : n + (i + 1) + 1 = n + 1 + i + 1 := by omega
            rw [Nat.succ_eq_add_one, harg]
          rw [hfun]
        · have hbk : (t == k) = false := beq_eq_false_iff_ne.mpr htk
          have hS : dictLookup (s.add_equipment loader t).1.eq_ids k = some m := by
            rw [hids, hids2, dictLookup_dictSet_ne _ _ _ _ (Ne.symm htk)]
            exact hm
          simp only [List.filter_cons, hbk, if_false]
          exact ih _ m hS
    | remove x y =>
      rw [createdNames_remove loader s x y rest]
      exact ih _ m (by rw [deleteItem_fst_eq_ids]; exact hm)

theorem createdNames_filter_of_none (loader : String → Bool) (k : String) :
    ∀ (ops : List RegOp) (s : NetApp), dictLookup s.eq_ids k = none →
      (createdNames loader s ops).filter (fun p => p.1 == k) = [] := by
  intro ops
  induction ops with
  | nil => intro s hk; simp [createdNames]
  | cons op rest ih =>
    intro s hk
    cases op with
    | insert t =>
      cases hini : NetworkEquipment.init loader s.eq_ids t with
      | error e =>
        rw [createdNames_insert_error loader s t rest e hini]
        have heq : (s.add_equipment loader t).1.eq_ids = s.eq_ids := by
          rw [add_equipment_error_eq loader s t e hini]
        exact ih _ (by rw [heq]; exact hk)
      | ok r =>
        rcases r with ⟨ids2, ne⟩
        obtain ⟨n, hn, hids2, hneq, hname⟩ := init_ok_spec loader s.eq_ids t ids2 ne hini
        obtain ⟨h2, hids, hnbr, hlook⟩ := add_equipment_ok_facts loader s t ids2 ne hini
        have htk : t ≠ k := by
          intro he; rw [he, hk] at hn; cases hn
        have hbk : (t == k) = false := beq_eq_false_iff_ne.mpr htk
        rw [createdNames_insert_ok loader s t rest ids2 ne hini, hneq]
        simp only [List.filter_cons, hbk, if_false]
        refine ih _ ?_
        rw [hids, hids2, dictLookup_dictSet_ne _ _ _ _ (Ne.symm htk)]
        exact hk
    | remove x y =>
      rw [createdNames_remove loader s x y rest]
      exact ih _ (by rw [deleteItem_fst_eq_ids]; exact hk)

/-- C4: over any sequence of insert/delete operations from a fresh app,
the default display names of the successful creations of any kind `k`
are exactly `"k-1", "k-2", ...` in creation order: the per-kind counter
starts at 1, increments once per successful creation of that kind, is
untouched by inserts or deletes of other kinds and by deletions of any
kind, and does not depend on the global id counter. -/
theorem default_display_names_per_kind (loader : String → Bool) (w h : Int)
    (ops : List RegOp) (k : String) :
    ((createdNames loader (NetApp.init w h) ops).filter (fun p => p.1 == k)).map Prod.snd
      = perKindSeq k
          (((createdNames loader (NetApp.init w h) ops).filter (fun p => p.1 == k)).length) := by
  cases hk : dictLookup (NetApp.init w h).eq_ids k with
  | none =>
    rw [createdNames_filter_of_none loader k ops _ hk]
    rfl
  | some m =>
    have hm0 : m = 0 := initIds_lookup_eq_zero k m hk
    subst hm0
    rw [createdNames_filter_names loader k ops (NetApp.init w h) 0 hk]
    unfold perKindSeq
    have hfun : (fun i => k ++ "-" ++ toString (0 + i + 1))
        = fun i => k ++ "-" ++ toString (i + 1) := by
      funext i
      rw [Nat.zero_add]
    rw [hfun]

theorem Canvas.moveto_mem_pos (c : Canvas) (t : Nat) (p : Int × Int) (it : CanvasItem)
    (hmem : it ∈ (c.moveto t p).items) (htag : it.tag = t) : it.pos = p := by
  unfold Canvas.moveto at hmem
  simp only [List.mem_map] at hmem
  obtain ⟨it0, hit0, heq⟩ := hmem
  by_cases h : it0.tag = t
  · simp only [h, if_true] at heq
    rw [← heq]
  · simp only [h, if_false] at heq
    rw [← heq] at htag
    exact absurd htag h

theorem Canvas.moveto_mem_of_ne (c : Canvas) (t : Nat) (p : Int × Int) (it : CanvasItem)
    (hmem : it ∈ (c.moveto t p).items) (hne : it.tag ≠ t) : it ∈ c.items := by
  unfold Canvas.moveto at hmem
  simp only [List.mem_map] at hmem
  obtain ⟨it0, hit0, heq⟩ := hmem
  by_cases h : it0.tag = t
  · simp only [h, if_true] at heq
    rw [← heq] at hne
    simp only [h] at hne
    exact absurd rfl hne
  · simp only [h, if_false] at heq
    rw [← heq]
    exact hit0

/-- C5 fails on the code: dragging the focused switch of
`sampleFocused` with the canvas widget sitting at offset
`winfo_x() = 10` inside its parent and raw pointer `(795, 100)` places
the icon's x at `800 - 32 = 768` — the clamp compared
`winfo_x() + event.x = 805` against the bound — whereas the claimed
formula `min(x, canvasWidth) = min(795, 800) = 795` would have placed
it at `763`. `dragClamp` is not `min` whenever the widget offset is
nonzero. -/
theorem drag_clamp_is_not_min :
    (sampleFocused.endDragFocus 10 0 795 100).1.playground.items
      = [{ tag := 2, kind := .text, pos := (784, 132) },
         { tag := 1, kind := .image, pos := (768, 68) }] ∧
    NetApp.dragClamp 10 800 795 = 800 ∧
    (min 795 800 : Int) = 795 ∧
    NetApp.dragClamp 10 800 795 ≠ min 795 800 := by
  decide

/-- C5 amended: the per-axis drag computation is
`x' = x if winfo_x() + x <= canvasWidth else canvasWidth`: the upper
clamp triggers on the pointer coordinate offset by the canvas widget's
own position, and only coincides with `min(x, canvasWidth)` when that
offset is zero. With nonnegative offsets a pointer beyond a bound still
lands exactly on that bound, there is no lower clamp, and on a
successful drag the focused icon is placed at the clamped point minus
half the icon width on both axes. -/
theorem drag_clamp_amended (s : NetApp) (wx wy x y : Int) (eid : Nat)
    (entry : EquipEntry)
    (hwx : 0 ≤ wx) (hwy : 0 ≤ wy)
    (hrev : dictLookup s.reverse_equipments s.focused_tag = some eid)
    (hent : dictLookup s.equipments eid = some (some entry))
    (hlab : entry.label ≠ s.focused_tag) :
    (s.x_size < x → NetApp.dragClamp wx s.x_size x = s.x_size) ∧
    (s.y_size < y → NetApp.dragClamp wy s.y_size y = s.y_size) ∧
    (∀ b c : Int, NetApp.dragClamp 0 b c = min c b) ∧
    (∀ it ∈ (s.endDragFocus wx wy x y).1.playground.items, it.tag = s.focused_tag →
      it.pos = (NetApp.dragClamp wx s.x_size x - 32, NetApp.dragClamp wy s.y_size y - 32)) := by
  refine ⟨?_, ?_, ?_, ?_⟩
  · intro hx
    unfold NetApp.dragClamp
    split <;> omega
  · intro hy
    unfold NetApp.dragClamp
    split <;> omega
  · intro b c
    unfold NetApp.dragClamp
    split <;> simp [min_def] <;> omega
  · intro it hmem htag
    have h32 : Int.fdiv ((NetworkEquipment.icon_size.1 : Nat) : Int) 2 = 32 := by decide
    simp only [NetApp.endDragFocus, hrev, hent, h32] at hmem
    have hmem1 := Canvas.moveto_mem_of_ne _ _ _ _ hmem (by rw [htag]; exact Ne.symm hlab)
    exact Canvas.moveto_mem_pos _ _ _ _ hmem1 htag

/-- Witness for the amended C5 theorem at `sampleFocused` with widget
offsets `(10, 0)` and pointer `(801, 100)`: the x-axis overflow lands
exactly on the bound, the zero-offset clamp is `min`, and the focused
icon is placed at the clamped point minus half the icon width. -/
theorem drag_clamp_witness :
    NetApp.dragClamp 10 800 801 = 800 ∧
    NetApp.dragClamp 0 800 795 = min 795 800 ∧
    ({ tag := 1, kind := .image, pos := (768, 68) } : CanvasItem).pos
      = (NetApp.dragClamp 10 800 801 - 32, NetApp.dragClamp 0 800 100 - 32) := by
  have h := drag_clamp_amended sampleFocused 10 0 801 100 1
    { item := { equipment := "switch", icon_path := "./src/icons/switch.png",
                icon := "./src/icons/switch.png", name := "switch-1", links_nbr := 0 },
      canvas_id := 1, label := 2, links := [] }
    (by decide) (by decide) (by decide) (by decide) (by decide)
  exact ⟨h.1 (by decide), h.2.2.1 795 800,
    h.2.2.2 { tag := 1, kind := .image, pos := (768, 68) } (by decide) (by decide)⟩

/-- C6 fails on the code: with no focus set, the fallback
`find_closest(...)[0]` raises `IndexError` on an empty canvas (so
rename and link-creation commands do fail), and even on a non-empty
canvas the fallback resolves to the nearest canvas *item* — here the
text label at the tracked mouse position — whose handle the registry
never tracked, so the rename fails with `KeyError` instead of acting on
an equipment. -/
theorem focus_fallback_can_fail :
    (NetApp.handleLinkCreation (NetApp.init 800 800)).2 = some PyError.indexError ∧
    ((NetApp.init 800 800).handleChangeOfEquipmentName "n").2 = some PyError.indexError ∧
    ((sampleApp.getMouseCoords 400 432).handleChangeOfEquipmentName "n").2
      = some PyError.keyError := by
  decide

/-- C6 amended: rename, icon-change and link-creation all target
`focused_tag` when it is non-sentinel; otherwise they target the canvas
item (not necessarily an equipment) closest to the last tracked pointer
position, and that fallback is fallible: it raises `IndexError` when
the canvas is empty, and the resolved item may be an untracked handle
such as a label, making the command fail downstream. -/
theorem focus_fallback_dispatch (loader : String → Bool) (s : NetApp)
    (nm dialog : String) :
    (s.focused_tag ≠ 0 →
      s.handleChangeOfEquipmentName nm = s.setEquipmentName s.focused_tag nm ∧
      NetApp.handleChangeOfEquipmentIcon loader s dialog
        = NetApp.setEquipmentIcon loader s s.focused_tag dialog ∧
      s.handleLinkCreation = s.setEquipmentsLink s.focused_tag) ∧
    (s.focused_tag = 0 →
      (∀ t, s.playground.find_closest s.mouse_coords.1 s.mouse_coords.2 = some t →
        s.handleChangeOfEquipmentName nm = s.setEquipmentName t nm ∧
        NetApp.handleChangeOfEquipmentIcon loader s dialog
          = NetApp.setEquipmentIcon loader s t dialog ∧
        s.handleLinkCreation = s.setEquipmentsLink t) ∧
      (s.playground.find_closest s.mouse_coords.1 s.mouse_coords.2 = none →
        (s.handleChangeOfEquipmentName nm).2 = some PyError.indexError ∧
        (NetApp.handleChangeOfEquipmentIcon loader s dialog).2 = some PyError.indexError ∧
        (s.handleLinkCreation).2 = some PyError.indexError)) := by
  refine ⟨fun hfoc => ?_, fun hfoc => ⟨fun t hfind => ?_, fun hfind => ?_⟩⟩
  · refine ⟨?_, ?_, ?_⟩ <;>
      simp [NetApp.handleChangeOfEquipmentName, NetApp.handleChangeOfEquipmentIcon,
        NetApp.handleLinkCreation, hfoc]
  · refine ⟨?_, ?_, ?_⟩ <;>
      simp [NetApp.handleChangeOfEquipmentName, NetApp.handleChangeOfEquipmentIcon,
        NetApp.handleLinkCreation, hfoc, hfind]
  · refine ⟨?_, ?_, ?_⟩ <;>
      simp [NetApp.handleChangeOfEquipmentName, NetApp.handleChangeOfEquipmentIcon,
        NetApp.handleLinkCreation, hfoc, hfind]

/-- Witness for the amended C6 theorem: in `sampleApp` no focus is set
and the icon (tag 1) is the closest item to the mouse, so the fallback
targets it; in `sampleFocused` the focused tag 1 is targeted directly. -/
theorem focus_fallback_witness :
    sampleApp.handleChangeOfEquipmentName "r" = sampleApp.setEquipmentName 1 "r" ∧
    sampleApp.handleLinkCreation = sampleApp.setEquipmentsLink 1 ∧
    sampleFocused.handleLinkCreation = sampleFocused.setEquipmentsLink 1 := by
  have h1 := ((focus_fallback_dispatch pathLoader sampleApp "r" "p").2
    (by decide)).1 1 (by decide)
  have h2 := (focus_fallback_dispatch pathLoader sampleFocused "r" "p").1 (by decide)
  exact ⟨h1.1, h1.2.2, h2.2.2⟩

/-- C7, code bug: the kind `"Switch"` passes the case-insensitive
validation (so there is no `InvalidKind` failure), yet creation does
not succeed: `__init__` stores `type` without lowercasing it — contrary
to its own docstring "All entries are going to be lowercased" — and
`NetworkEquipment.ids["Switch"] += 1` reads a key that only exists in
lowercase, raising `KeyError`. No entry is added in either failure
mode (`"toaster"` correctly fails validation with `ValueError`). -/
theorem mixed_case_kind_keyerror_bug :
    pyLower "Switch" ∈ NetworkEquipment.supported_equipments ∧
    (NetApp.add_equipment pathLoader (NetApp.init 800 800) "Switch").2
      = some PyError.keyError ∧
    (NetApp.add_equipment pathLoader (NetApp.init 800 800) "Switch").1.equipments = [] ∧
    (NetApp.add_equipment pathLoader (NetApp.init 800 800) "toaster").2
      = some (PyError.valueError "Unsupported Network Equipment") ∧
    (NetApp.add_equipment pathLoader (NetApp.init 800 800) "toaster").1.equipments
      = [] := by
  decide

/-- C8 fails on the code: a `setIcon` whose load fails raises
`IconLoadFailed` and keeps `icon` (the iconRef) pointing at the
previous image, but the update is partial: `icon_path` was assigned
before the load was attempted and now holds the failing path instead of
the path of the image still displayed. -/
theorem icon_path_overwritten_on_failed_load :
    (NetApp.setEquipmentIcon badLoader sampleFocused 1 "/bad.png").2
      = some PyError.iconLoadError ∧
    ((dictLookup (NetApp.setEquipmentIcon badLoader sampleFocused 1 "/bad.png").1.equipments
        1).map (Option.map (fun e => (e.item.icon_path, e.item.icon))))
      = some (some ("/bad.png", "./src/icons/switch.png")) ∧
    ((dictLookup sampleFocused.equipments 1).map
        (Option.map (fun e => (e.item.icon_path, e.item.icon))))
      = some (some ("./src/icons/switch.png", "./src/icons/switch.png")) := by
  decide

/-- C8 amended: for every failing load, `setIcon` raises
`IconLoadFailed` and leaves `icon` (the iconRef) referencing the
previously loaded image, but `icon_path` has already been overwritten
with the new path, so the icon state is partially updated. -/
theorem setIcon_failure_keeps_iconref (loader : String → Bool)
    (ne : NetworkEquipment) (p : String) (h : loader p = false) :
    (ne.setIcon loader p).2 = some PyError.iconLoadError ∧
    (ne.setIcon loader p).1.icon = ne.icon ∧
    (ne.setIcon loader p).1.icon_path = p := by
  refine ⟨?_, ?_, ?_⟩ <;> simp [NetworkEquipment.setIcon, h]

/-- Witness for the amended C8 theorem on the sample switch equipment
and a loader that fails on `/bad.png`. -/
theorem setIcon_failure_witness :
    (NetworkEquipment.setIcon badLoader
        { equipment := "switch", icon_path := "./src/icons/switch.png",
          icon := "./src/icons/switch.png", name := "switch-1", links_nbr := 0 }
        "/bad.png").2 = some PyError.iconLoadError ∧
    (NetworkEquipment.setIcon badLoader
        { equipment := "switch", icon_path := "./src/icons/switch.png",
          icon := "./src/icons/switch.png", name := "switch-1", links_nbr := 0 }
        "/bad.png").1.icon = "./src/icons/switch.png" ∧
    (NetworkEquipment.setIcon badLoader
        { equipment := "switch", icon_path := "./src/icons/switch.png",
          icon := "./src/icons/switch.png", name := "switch-1", links_nbr := 0 }
        "/bad.png").1.icon_path = "/bad.png" :=
  setIcon_failure_keeps_iconref badLoader
    { equipment := "switch", icon_path := "./src/icons/switch.png",
      icon := "./src/icons/switch.png", name := "switch-1", links_nbr := 0 }
    "/bad.png" (by decide)

/-- C9, code bug: `handleChangeOfEquipmentIcon` passes the dialog
result to `setEquipmentIcon` with no emptiness guard, so a cancelled
dialog (empty string) is not a no-op: the focused equipment's
`icon_path` is overwritten with `""` and the load of the empty path is
attempted and fails with `IconLoadFailed`. -/
theorem cancelled_dialog_attempts_empty_load :
    (NetApp.handleChangeOfEquipmentIcon pathLoader sampleFocused "").2
      = some PyError.iconLoadError ∧
    ((dictLookup (NetApp.handleChangeOfEquipmentIcon pathLoader sampleFocused
        "").1.equipments 1).map (Option.map (fun e => e.item.icon_path)))
      = some (some "") := by
  decide

theorem closestItem_mem (x y : Int) :
    ∀ (l : List CanvasItem) (it : CanvasItem),
      Canvas.closestItem x y l = some it → it ∈ l := by
  intro l
  induction l with
  | nil => intro it h; cases h
  | cons a rest ih =>
    intro it h
    rw [Canvas.closestItem] at h
    cases hr : Canvas.closestItem x y rest with
    | none =>
      simp only [hr, Option.some.injEq] at h
      rw [← h]
      exact List.mem_cons_self a rest
    | some best =>
      simp only [hr] at h
      by_cases hcond : Canvas.dist2 a.pos x y < Canvas.dist2 best.pos x y
      · simp only [hcond, if_true, Option.some.injEq] at h
        rw [← h]
        exact List.mem_cons_self a rest
      · simp only [hcond, if_false, Option.some.injEq] at h
        rw [← h]
        exact List.mem_cons_of_mem a (ih best hr)

theorem closestItem_of_nil (x y : Int) (l : List CanvasItem)
    (h : Canvas.closestItem x y l = none) : l = [] := by
  cases l with
  | nil => rfl
  | cons a rest =>
    rw [Canvas.closestItem] at h
    cases hr : Canvas.closestItem x y rest with
    | none => simp only [hr] at h; cases h
    | some best =>
      simp only [hr] at h
      by_cases hcond : Canvas.dist2 a.pos x y < Canvas.dist2 best.pos x y <;>
        simp [hcond] at h

theorem closestItem_min (x y : Int) :
    ∀ (l : List CanvasItem) (it : CanvasItem),
      Canvas.closestItem x y l = some it →
      ∀ it2 ∈ l, Canvas.dist2 it.pos x y ≤ Canvas.dist2 it2.pos x y := by
  intro l
  induction l with
  | nil => intro it h; cases h
  | cons a rest ih =>
    intro it h it2 h2
    rw [Canvas.closestItem] at h
    cases hr : Canvas.closestItem x y rest with
    | none =>
      simp only [hr, Option.some.injEq] at h
      have hnil := closestItem_of_nil x y rest hr
      subst hnil
      rcases List.mem_cons.mp h2 with rfl | h2
      · rw [← h]
      · cases h2
    | some best =>
      simp only [hr] at h
      by_cases hcond : Canvas.dist2 a.pos x y < Canvas.dist2 best.pos x y
      · simp only [hcond, if_true, Option.some.injEq] at h
        rcases List.mem_cons.mp h2 with rfl | h2
        · rw [← h]
        · have hb := ih best hr it2 h2
          rw [← h]
          omega
      · simp only [hcond, if_false, Option.some.injEq] at h
        rcases List.mem_cons.mp h2 with rfl | h2
        · rw [← h]
          omega
        · rw [← h]
          exact ih best hr it2 h2

theorem runOps_mouse (loader : String → Bool) :
    ∀ (ops : List RegOp) (s : NetApp),
      (runOps loader s ops).mouse_coords = s.mouse_coords := by
  intro ops
  induction ops with
  | nil => intro s; rfl
  | cons op rest ih =>
    intro s
    cases op with
    | insert k => rw [runOps, ih, add_equipment_fst_mouse]
    | remove x y => rw [runOps, ih, deleteItem_fst_mouse]

/-- C10: a fresh app starts with `mouse_coords = (0, 0)` and no
insert/delete event ever changes it, so before any pointer motion the
tracked position is exactly the origin; in any such state with no
focus set, rename, icon-change and link-creation all resolve their
target to the canvas item nearest `(0, 0)` (the minimiser of the
squared distance over the display list) rather than failing. -/
theorem initial_mouse_origin_fallback (w h : Int) (loader : String → Bool)
    (ops : List RegOp) (s : NetApp) (nm : String) (it : CanvasItem)
    (hm : s.mouse_coords = (0, 0)) (hf : s.focused_tag = 0)
    (hit : Canvas.closestItem 0 0 s.playground.items = some it) :
    (NetApp.init w h).mouse_coords = (0, 0) ∧
    (runOps loader (NetApp.init w h) ops).mouse_coords = (0, 0) ∧
    it ∈ s.playground.items ∧
    (∀ it2 ∈ s.playground.items,
      Canvas.dist2 it.pos 0 0 ≤ Canvas.dist2 it2.pos 0 0) ∧
    s.handleChangeOfEquipmentName nm = s.setEquipmentName it.tag nm ∧
    s.handleLinkCreation = s.setEquipmentsLink it.tag ∧
    NetApp.handleChangeOfEquipmentIcon loader s nm
      = NetApp.setEquipmentIcon loader s it.tag nm := by
  have hfind : s.playground.find_closest 0 0 = some it.tag := by
    rw [Canvas.find_closest, hit]
    rfl
  refine ⟨rfl, ?_, closestItem_mem 0 0 _ it hit, closestItem_min 0 0 _ it hit,
    ?_, ?_, ?_⟩
  · rw [runOps_mouse]
    rfl
  · simp [NetApp.handleChangeOfEquipmentName, hf, hm, hfind]
  · simp [NetApp.handleLinkCreation, hf, hm, hfind]
  · simp [NetApp.handleChangeOfEquipmentIcon, hf, hm, hfind]

/-- Witness for the C10 theorem at `sampleApp` (no focus, mouse still
at the origin, switch icon tag 1 nearest to the origin). -/
theorem initial_mouse_origin_witness :
    sampleApp.handleChangeOfEquipmentName "n" = sampleApp.setEquipmentName 1 "n" ∧
    ({ tag := 1, kind := .image, pos := (400, 400) } : CanvasItem)
      ∈ sampleApp.playground.items := by
  have h := initial_mouse_origin_fallback 800 800 pathLoader [] sampleApp "n"
    { tag := 1, kind := .image, pos := (400, 400) }
    (by decide) (by decide) (by decide)
  exact ⟨h.2.2.2.2.1, h.2.2.1⟩
